import Mathlib

/-
Verification of the parameter-resolution and template-materialization logic of
nf_core/create.py (class PipelineCreate).

The Python dictionary self.template_params is embedded as an association list
whose lookup finds the most recent binding, matching Python dict assignment
order.  Interactive prompts, the Jinja engine, binary-content detection and the
HTTP layer are external collaborators; they enter the model as explicit oracle
inputs (prompt strings, a per-file render outcome, a binary flag, a per-attempt
fetch outcome).  Python exceptions that the source can raise while building or
consuming the dictionary (KeyError from a missing key, IndexError from indexing
an empty string) are modelled with an explicit error type.
-/

/-- Python exceptions that the modelled code paths can raise. -/
inductive PyErr where
  | keyError (k : String)
  | indexError
  | typeError
  deriving DecidableEq

/-- Values stored in the template_params dictionary. -/
inductive PVal where
  | str (v : String)
  | bool (v : Bool)
  | strList (v : List String)
  | pyNone
  deriving DecidableEq

/-- The template_params dictionary: an association list where the most recent
assignment shadows earlier ones. -/
def Dict : Type := List (String × PVal)

/-- Python dict assignment d[k] = v. -/
def dset (d : Dict) (k : String) (v : PVal) : Dict := (k, v) :: d

/-- Python dict lookup: the most recent binding wins. -/
def dget : Dict → String → Option PVal
  | [], _ => Option.none
  | (k1, v) :: rest, k => if k1 = k then some v else dget rest k

/-- Python dict indexing d[k] for a string-valued entry; raises KeyError when
the key is absent (as in the f-string lookups of render_template and
make_pipeline_logo). -/
def dgetS (d : Dict) (k : String) : Except PyErr String :=
  match dget d k with
  | some (.str v) => .ok v
  | some _ => .error .typeError
  | Option.none => .error (.keyError k)

/-- Python str.replace scanning: at each position, if the (non-empty) pattern
is a prefix of the remaining text, emit the replacement and skip the pattern;
otherwise keep one character.  The fuel argument is an upper bound on the
number of scanning steps (each step consumes at least one character). -/
def pyReplaceGo (pat repl : List Char) : Nat → List Char → List Char
  | 0, s => s
  | _ + 1, [] => []
  | fuel + 1, c :: rest =>
    if pat.isPrefixOf (c :: rest) then
      repl ++ pyReplaceGo pat repl fuel ((c :: rest).drop pat.length)
    else
      c :: pyReplaceGo pat repl fuel rest

/-- Python str.replace(pat, repl), replacing every non-overlapping occurrence
left to right.  An empty pattern interleaves the replacement around every
character, as in CPython. -/
def pyReplace (s pat repl : String) : String :=
  match pat.data with
  | [] => String.mk (repl.data ++ s.data.flatMap (fun c => c :: repl.data))
  | _ :: _ => String.mk (pyReplaceGo pat.data repl.data s.data.length s.data)

/-- Replacing every slash with a hyphen, stated as a per-character map; used to
phrase the specification reading of name_noslash. -/
def slashToDash (s : String) : String :=
  String.mk (s.data.map (fun c => if c = '/' then '-' else c))

/-- The optional template YAML document (create.py lines 66-70): each scalar
key either absent or bound to a string, plus the optional skip list.  The YAML
key naming the organization namespace is spelled pfx here because its Python
spelling is a Lean keyword.  When no YAML path is given and the user accepts
interactive customization (lines 92-98), the document already holds the merged
pfx/skip answers. -/
structure TemplateYaml where
  name : Option String
  description : Option String
  author : Option String
  version : Option String
  pfx : Option String
  skip : Option (List String)

/-- The three scalar fields resolved through get_param (create.py lines 74-76). -/
inductive TYField where
  | name
  | description
  | author
  deriving DecidableEq

/-- Membership and lookup of a scalar field in the YAML document. -/
def TemplateYaml.get (y : TemplateYaml) : TYField → Option String
  | .name => y.name
  | .description => y.description
  | .author => y.author

/-- PipelineCreate.get_param (create.py lines 144-151).  When the YAML defines
the requested field, the source reads template_yaml["name"] - the literal key
"name", whatever field was asked for - which raises KeyError when "name" is
absent.  Otherwise the directly supplied value is used, and when that is None
the field-specific interactive prompt result (an oracle input here) is used. -/
def get_param (y : TemplateYaml) (field : TYField) (passed : Option String)
    (prompt : String) : Except PyErr String :=
  if (y.get field).isSome then
    match y.name with
    | some v => .ok v
    | Option.none => .error (.keyError "name")
  else
    match passed with
    | some v => .ok v
    | Option.none => .ok prompt

/-- Version resolution (create.py lines 78-82): a version found in the YAML
overrides the directly supplied one. -/
def resolve_version (y : TemplateYaml) (versionArg : Option String) : Option String :=
  match y.version with
  | some v => some v
  | Option.none => versionArg

/-- Python str.lower, per character (ASCII case mapping). -/
def pyLower (s : String) : String := String.mk (s.data.map Char.toLower)

/-- short_name derivation (create.py lines 108-110): lower-case the resolved
name, then apply the three literal replacements in source order. -/
def shortNameOf (nm pfx : String) : String :=
  pyReplace (pyReplace (pyReplace (pyLower nm) "/\\s+/" "-") (pfx ++ "/") "") "/" "-"

def pvOfOpt : Option String → PVal
  | some v => .str v
  | Option.none => .pyNone

/-- The dictionary built by create_param_dict (create.py lines 72-118) once the
three scalar fields have been resolved: entries are assigned in source order
(name, description, author, version, prefix, skip, the three area booleans,
short_name, the recomputed name, name_noslash, prefix_nodash, name_docker, the
two logo names, version again, branded).  No "outdir" entry is ever stored. -/
def derive_params (y : TemplateYaml) (nm de au : String) (version : Option String) : Dict :=
  let pfx := y.pfx.getD "nf-core"
  let skipList := y.skip.getD []
  let short_name := shortNameOf nm pfx
  let nm2 := pfx ++ "/" ++ short_name
  let name_noslash := pyReplace nm2 "/" "-"
  let prefix_nodash := pyReplace pfx "-" ""
  let d : Dict := []
  let d := dset d "name" (.str nm)
  let d := dset d "description" (.str de)
  let d := dset d "author" (.str au)
  let d := dset d "version" (pvOfOpt version)
  let d := dset d "prefix" (.str pfx)
  let d := dset d "skip" (.strList [])
  let d := dset d "ci" (.bool (!(skipList.contains "ci")))
  let d := dset d "github_badges" (.bool (!(skipList.contains "github_badges")))
  let d := dset d "igenomes" (.bool (!(skipList.contains "igenomes")))
  let d := dset d "short_name" (.str short_name)
  let d := dset d "name" (.str nm2)
  let d := dset d "name_noslash" (.str name_noslash)
  let d := dset d "prefix_nodash" (.str prefix_nodash)
  let d := dset d "name_docker" (.str (pyReplace nm2 pfx prefix_nodash))
  let d := dset d "logo_light" (.str (name_noslash ++ "_logo_light.png"))
  let d := dset d "logo_dark" (.str (name_noslash ++ "_logo_dark.png"))
  let d := dset d "version" (pvOfOpt version)
  let d := dset d "branded" (.bool (pfx == "nf-core"))
  d

/-- PipelineCreate.create_param_dict (create.py lines 60-120): resolve name,
description and author through get_param, resolve version, then build the
dictionary of derived parameters.  The prompt arguments stand for the
interactive prompt results. -/
def create_param_dict (y : TemplateYaml) (nameArg descriptionArg authorArg : Option String)
    (versionArg : Option String) (promptName promptDescription promptAuthor : String) :
    Except PyErr Dict :=
  match get_param y .name nameArg promptName with
  | .error e => .error e
  | .ok nm =>
    match get_param y .description descriptionArg promptDescription with
    | .error e => .error e
    | .ok de =>
      match get_param y .author authorArg promptAuthor with
      | .error e => .error e
      | .ok au => .ok (derive_params y nm de au (resolve_version y versionArg))

/-- Exception classes a render attempt can raise (create.py lines 256-263):
UnicodeDecodeError is caught together with the AttributeError used for binary
files; every other engine failure is caught by the bare Exception handler. -/
inductive RenderErr where
  | unicodeDecodeError
  | templateError
  | otherError
  deriving DecidableEq

deriving instance DecidableEq for Except

/-- A template-tree entry as seen by the render loop (create.py lines 224-267).
relPath is the path relative to the template directory; isDir mirrors the
os.path.isdir test; isBinary is the verdict of the external binary-content
inspection (nf_core.utils.is_file_binary); renderResult is the outcome of the
external Jinja render of this file (a rendered string, or the exception class
the engine raised); mode holds the permission bits of the source file. -/
structure TemplateFile where
  relPath : String
  isDir : Bool
  content : List Nat
  isBinary : Bool
  renderResult : Except RenderErr String
  mode : Nat
  deriving DecidableEq

/-- What a processed file ends up as at its destination. -/
inductive FileContent where
  | rendered (s : String)
  | copiedBytes (b : List Nat)
  deriving DecidableEq

/-- A file written to the output tree: destination path, contents, and the
permission bits set by the final os.chmod (create.py lines 265-267). -/
structure OutFile where
  path : String
  content : FileContent
  mode : Nat
  deriving DecidableEq

/-- Build-artifact markers (create.py line 216): a substring match against the
full template path skips the entry. -/
def ignore_strs : List String := [".pyc", "__pycache__", ".pyo", ".pyd", ".DS_Store", ".egg"]

/-- Paths-to-skip table for disabled feature areas (create.py line 222).  The
source binds this dictionary and never consults it again: no statement in the
render loop reads it. -/
def skippable_paths : List (String × String) :=
  [("ci", ".github/workflows/"), ("igenomes", "conf/igenomes.config")]

/-- List-infix test used to model the Python substring operator. -/
def listHasInfix (needle : List Char) : List Char → Bool
  | [] => needle.isEmpty
  | c :: rest => needle.isPrefixOf (c :: rest) || listHasInfix needle rest

/-- Python substring containment. -/
def strIn (sub s : String) : Bool := listHasInfix sub.data s.data

/-- Lookup in a rename table (Python dict indexing on string keys). -/
def lookupStr : List (String × String) → String → Option String
  | [], _ => Option.none
  | (k1, v) :: rest, k => if k1 = k then some v else lookupStr rest k

/-- The rename table (create.py lines 217-220).  Building it indexes
short_name[0], which raises IndexError on an empty short_name; otherwise the
first character is upper-cased for the groovy library file name. -/
def buildRenameFiles (short_name : String) : Except PyErr (List (String × String)) :=
  match short_name.data with
  | [] => .error .indexError
  | c :: rest =>
    .ok [("workflows/pipeline.nf", "workflows/" ++ short_name ++ ".nf"),
         ("lib/WorkflowPipeline.groovy",
          "lib/Workflow" ++ String.mk (c.toUpper :: rest) ++ ".groovy")]

/-- The ignore filter (create.py line 229): any marker occurring as a substring
of the full template path skips the entry. -/
def isIgnored (templateDir : String) (f : TemplateFile) : Bool :=
  ignore_strs.any (fun s => strIn s (templateDir ++ "/" ++ f.relPath))

/-- Destination path of an entry (create.py lines 234-237): the rename table
maps certain relative paths; all others keep their relative path. -/
def outPathOf (outdir : String) (rename : List (String × String)) (f : TemplateFile) : String :=
  match lookupStr rename f.relPath with
  | some r => outdir ++ "/" ++ r
  | Option.none => outdir ++ "/" ++ f.relPath

/-- One iteration of the render loop (create.py lines 224-267).  Directories
and ignored entries produce nothing.  A binary file raises AttributeError
inside the try block and is copied verbatim by the first except clause; a
successful render writes the rendered text; a render failure of any class is
caught (lines 256-263) and the file is copied verbatim.  The final os.chmod
(lines 265-267) sets the destination mode to the source mode on every path. -/
def processFile (outdir templateDir : String) (rename : List (String × String))
    (f : TemplateFile) : Option OutFile :=
  if f.isDir then Option.none
  else if isIgnored templateDir f then Option.none
  else
    let outPath := outPathOf outdir rename f
    if f.isBinary then
      some { path := outPath, content := .copiedBytes f.content, mode := f.mode }
    else
      match f.renderResult with
      | .ok s => some { path := outPath, content := .rendered s, mode := f.mode }
      | .error _ => some { path := outPath, content := .copiedBytes f.content, mode := f.mode }

/-- PipelineCreate.make_pipeline_logo (create.py lines 272-287): build the logo
URL from short_name, then build the three destination paths, each an f-string
reading template_params["outdir"] and template_params["name_noslash"].  The
result is the list of (url, destination) download invocations in source order:
the email logo, then the dark and light readme logos.  The "outdir" lookup
raises KeyError whenever the dictionary lacks that key, before any download. -/
def make_pipeline_logo (d : Dict) : Except PyErr (List (String × String)) :=
  match dgetS d "short_name" with
  | .error e => .error e
  | .ok sn =>
    let logo_url := "https://nf-co.re/logo/" ++ sn ++ "?theme=light"
    match dgetS d "outdir" with
    | .error e => .error e
    | .ok od =>
      match dgetS d "name_noslash" with
      | .error e => .error e
      | .ok nns =>
        .ok [(logo_url ++ "&w=400", od ++ "/assets/" ++ nns ++ "_logo_light.png"),
             (logo_url ++ "?w=600&theme=dark", od ++ "/docs/images/" ++ nns ++ "_logo_dark.png"),
             (logo_url ++ "?w=600&theme=light", od ++ "/docs/images/" ++ nns ++ "_logo_light.png")]

/-- How a materialization run ends: normal completion, a raised Python
exception, or sys.exit with the given status. -/
inductive RunOutcome where
  | ok
  | raised (e : PyErr)
  | exited (code : Nat)
  deriving DecidableEq

/-- Observable result of a materialization run: whether the output directory
was created, whether the overwrite warning was issued, the files written, and
whether the logo-acquisition step was reached, with the download invocations it
produced. -/
structure RenderResult where
  createdDir : Bool
  warned : Bool
  files : List OutFile
  logoInvoked : Bool
  downloads : List (String × String)
  outcome : RunOutcome

/-- Run aborted before anything was done. -/
def mkAbort (e : PyErr) : RenderResult :=
  { createdDir := false, warned := false, files := [], logoInvoked := false,
    downloads := [], outcome := .raised e }

/-- Body of render_template after the directory check (create.py lines
206-270): store nf_core_version into the parameter dictionary (line 211), read
short_name and build the rename table (lines 217-220) - this is where an empty
short_name raises IndexError, before any file is processed - then run the loop
over all entries and finally invoke make_pipeline_logo (line 270).  The
skippable_paths table bound at line 222 is never consulted by the loop, so no
feature-area filtering happens here. -/
def renderBody (d : Dict) (createdDir warned : Bool) (outdir templateDir : String)
    (tfiles : List TemplateFile) (nfCoreVersion : String) : RenderResult :=
  let d := dset d "nf_core_version" (.str nfCoreVersion)
  match dgetS d "short_name" with
  | .error e =>
    { createdDir := createdDir, warned := warned, files := [], logoInvoked := false,
      downloads := [], outcome := .raised e }
  | .ok sn =>
    match buildRenameFiles sn with
    | .error e =>
      { createdDir := createdDir, warned := warned, files := [], logoInvoked := false,
        downloads := [], outcome := .raised e }
    | .ok rename =>
      let files := tfiles.filterMap (processFile outdir templateDir rename)
      match make_pipeline_logo d with
      | .error e =>
        { createdDir := createdDir, warned := warned, files := files, logoInvoked := true,
          downloads := [], outcome := .raised e }
      | .ok dls =>
        { createdDir := createdDir, warned := warned, files := files, logoInvoked := true,
          downloads := dls, outcome := .ok }

/-- PipelineCreate.render_template (create.py lines 188-270).  Line 190 logs an
f-string reading template_params["name"].  If the output directory exists
(line 193): with force, the warning f-string at line 196 reads
template_params["outdir"] - raising KeyError when absent - before proceeding;
without force, the error f-string at line 199 reads the same key - raising
KeyError when absent - and only then would sys.exit(1) run (line 201).  If the
directory does not exist it is created with parents (line 203) and the run
proceeds. -/
def render_template (d : Dict) (force outdirExists : Bool) (outdir templateDir : String)
    (tfiles : List TemplateFile) (nfCoreVersion : String) : RenderResult :=
  match dgetS d "name" with
  | .error e => mkAbort e
  | .ok _ =>
    if outdirExists then
      if force then
        match dgetS d "outdir" with
        | .error e => mkAbort e
        | .ok _ => renderBody d false true outdir templateDir tfiles nfCoreVersion
      else
        match dgetS d "outdir" with
        | .error e => mkAbort e
        | .ok _ =>
          { createdDir := false, warned := false, files := [], logoInvoked := false,
            downloads := [], outcome := .exited 1 }
    else
      renderBody d true false outdir templateDir tfiles nfCoreVersion

/-- Outcome of one requests.get call in download_pipeline_logo (create.py
lines 305-316): either the call raises ConnectionError, or it returns a
response carrying a status code and a body; isPng records whether imghdr.what
recognizes the written body as a png (line 322). -/
inductive FetchOutcome where
  | connError
  | response (status : Nat) (payload : List Nat) (isPng : Bool)
  deriving DecidableEq

/-- An attempt counts as a failure (create.py lines 308-316 and 322-325): a
raised ConnectionError, a status other than 200 (raised as UserWarning and
caught by the same clause), or a written body that is not a valid png. -/
def isFailure : FetchOutcome → Bool
  | .connError => true
  | .response st _ png => st ≠ 200 || !png

/-- Observable trace of one download_pipeline_logo call: number of attempts
made, the sleep durations in order, the destination file content (None when
nothing was ever written), and whether the loop ended via the success break. -/
structure LogoTrace where
  attempts : Nat
  sleeps : List Nat
  file : Option (List Nat)
  success : Bool
  deriving DecidableEq

/-- The retry loop of download_pipeline_logo (create.py lines 292-328).  The
while guard attempt < max_attempts is carried as the structural fuel argument,
kept equal to max_attempts - attempt.  Each iteration: sleep retry_delay when
it is positive (lines 297-299), increment attempt (line 301), draw
random.randint(1,100) - the rng oracle indexed by the new attempt number - and
set retry_delay to that draw times the new attempt number (line 303), then try
the request.  ConnectionError and the UserWarning raised for a non-200 status
are caught and the loop continues (lines 305-316) without writing; a 200
response body is written to the destination (lines 319-320) and then validated
with imghdr (lines 322-325): an invalid image continues the loop, a valid one
breaks out (line 328). -/
def logoLoop (oracle : Nat → FetchOutcome) (rng : Nat → Nat) :
    Nat → Nat → Nat → Option (List Nat) → List Nat → LogoTrace
  | 0, attempt, _, file, sleeps => ⟨attempt, sleeps, file, false⟩
  | fuel + 1, attempt, retryDelay, file, sleeps =>
    let sleeps := if retryDelay > 0 then sleeps ++ [retryDelay] else sleeps
    let a := attempt + 1
    let rd := rng a * a
    match oracle a with
    | .connError => logoLoop oracle rng fuel a rd file sleeps
    | .response st p png =>
      if st = 200 then
        if png then ⟨a, sleeps, some p, true⟩
        else logoLoop oracle rng fuel a rd (some p) sleeps
      else logoLoop oracle rng fuel a rd file sleeps

/-- PipelineCreate.download_pipeline_logo (create.py lines 289-328): attempt
counter starts at 0, max_attempts is 10, the initial retry_delay is 0 (so no
sleep precedes the first attempt).  initFile is whatever the destination held
before the call. -/
def download_pipeline_logo (oracle : Nat → FetchOutcome) (rng : Nat → Nat)
    (initFile : Option (List Nat)) : LogoTrace :=
  logoLoop oracle rng 10 0 0 initFile []

/-- The sleep durations produced by k consecutive failing iterations whose
pending retry_delay entering the first of them is rng a * a. -/
def expectedSleeps (rng : Nat → Nat) : Nat → Nat → List Nat
  | _, 0 => []
  | a, k + 1 => rng a * a :: expectedSleeps rng (a + 1) k

/-- Sleep entries contributed by one iteration whose pending retry_delay is rd:
nothing when rd = 0, otherwise the single sleep of that duration. -/
def pendSleep (rd : Nat) : List Nat := if rd > 0 then [rd] else []

/-- The pattern for a valid organization namespace, read off the regex at
create.py line 132: a letter or underscore followed by letters, digits,
underscores or hyphens. -/
def isValidPfx (s : String) : Bool :=
  match s.data with
  | [] => false
  | c :: rest =>
    (c.isAlpha || c = '_') && rest.all (fun ch => ch.isAlphanum || ch = '_' || ch = '-')

/-- The pattern for a valid workflow short name, read off the regex at
create.py line 155: one or more lower-case letters. -/
def isValidShortName (s : String) : Bool :=
  !(s.data.isEmpty) && s.data.all (fun c => 'a' ≤ c && c ≤ 'z')

/-- Extract the dictionary from a successful create_param_dict run. -/
def exOk : Except PyErr Dict → Dict
  | .ok d => d
  | .error _ => []

/-- YAML document defining only the name. -/
def yMypipe : TemplateYaml :=
  ⟨some "mypipe", Option.none, Option.none, Option.none, Option.none, Option.none⟩

/-- YAML document defining the name and asking to skip the ci area. -/
def ySkipCI : TemplateYaml :=
  ⟨some "mypipe", Option.none, Option.none, Option.none, Option.none, some ["ci"]⟩

/-- YAML document whose name collapses to an empty short_name (the default
namespace followed by a bare slash). -/
def yEmptyShort : TemplateYaml :=
  ⟨some "nf-core/", Option.none, Option.none, Option.none, Option.none, Option.none⟩

/-- YAML document defining both name and description, with distinct values. -/
def yC2 : TemplateYaml :=
  ⟨some "x", some "y", Option.none, Option.none, Option.none, Option.none⟩

/-- YAML document defining description but not name. -/
def yC2b : TemplateYaml :=
  ⟨Option.none, some "y", Option.none, Option.none, Option.none, Option.none⟩

/-- Parameter dictionary resolved from yMypipe. -/
def dMypipe : Dict :=
  exOk (create_param_dict yMypipe Option.none (some "desc") (some "me") (some "1.0dev") "p" "p" "p")

/-- Parameter dictionary resolved from ySkipCI. -/
def dSkipCI : Dict :=
  exOk (create_param_dict ySkipCI Option.none (some "desc") (some "me") (some "1.0dev") "p" "p" "p")

/-- Parameter dictionary resolved from yEmptyShort; its short_name is empty. -/
def dEmptyShort : Dict :=
  exOk (create_param_dict yEmptyShort Option.none (some "desc") (some "me") (some "1.0dev") "p" "p" "p")

/-- A template entry living under the continuous-integration workflow path. -/
def ciFile : TemplateFile :=
  ⟨".github/workflows/ci.yml", false, [1, 2, 3], false, .ok "rendered ci", 420⟩

/-- A binary template entry whose render attempt would fail. -/
def fBin : TemplateFile :=
  ⟨"f.bin", false, [9], true, .error .unicodeDecodeError, 493⟩

/-- The output file produced for fBin under outdir "out" and an empty rename
table. -/
def outBin : OutFile := ⟨"out/f.bin", .copiedBytes [9], 493⟩

/-- A fetch endpoint that fails the first two attempts with a connection error
and then returns a valid png. -/
def oracleFailTwice : Nat → FetchOutcome :=
  fun i => if i ≤ 2 then .connError else .response 200 [7] true

/-- A fetch endpoint that always fails with a connection error. -/
def oracleAllFail : Nat → FetchOutcome := fun _ => .connError

/-- A deterministic random source always drawing 1. -/
def rngConst1 : Nat → Nat := fun _ => 1

/-- A deterministic random source always drawing 7. -/
def rngConst7 : Nat → Nat := fun _ => 7

theorem dget_dset_self (d : Dict) (k : String) (v : PVal) :
    dget (dset d k v) k = some v := by
  simp [dget, dset]

theorem dget_dset_ne (d : Dict) (k1 k2 : String) (v : PVal) (h : k1 ≠ k2) :
    dget (dset d k1 v) k2 = dget d k2 := by
  simp [dget, dset, h]

theorem pyReplaceGo_single (a b : Char) :
    ∀ (fuel : Nat) (s : List Char), s.length ≤ fuel →
      pyReplaceGo [a] [b] fuel s = s.map (fun c => if c = a then b else c) := by
  intro fuel
  induction fuel with
  | zero =>
    intro s hs
    have : s = [] := List.eq_nil_of_length_eq_zero (Nat.le_zero.mp hs)
    subst this
    simp [pyReplaceGo]
  | succ n ih =>
    intro s hs
    cases s with
    | nil => simp [pyReplaceGo]
    | cons c rest =>
      by_cases hac : a = c
      · subst hac
        have hpre : List.isPrefixOf [a] (a :: rest) = true := by
          simp [List.isPrefixOf]
        simp only [pyReplaceGo, hpre, if_true, List.drop_succ_cons, List.drop_zero,
          List.map_cons, if_pos rfl]
        have := ih rest (by simpa using Nat.le_of_succ_le_succ hs)
        simp [this]
      · have hpre : List.isPrefixOf [a] (c :: rest) = false := by
          simp [List.isPrefixOf, beq_iff_eq, hac]
        simp only [pyReplaceGo, hpre, Bool.false_eq_true, if_false, List.map_cons]
        have := ih rest (by simpa using Nat.le_of_succ_le_succ hs)
        rw [this]
        have : ¬ c = a := fun hc => hac hc.symm
        simp [this]

theorem pyReplace_slash (s : String) : pyReplace s "/" "-" = slashToDash s := by
  have h1 : ("/" : String).data = ['/'] := rfl
  have h2 : ("-" : String).data = ['-'] := rfl
  simp only [pyReplace, h1, h2, slashToDash]
  rw [pyReplaceGo_single '/' '-' s.data.length s.data (Nat.le_refl _)]

theorem create_param_dict_ok (y : TemplateYaml)
    (nameArg descriptionArg authorArg versionArg : Option String)
    (pn pd pa : String) (d : Dict)
    (h : create_param_dict y nameArg descriptionArg authorArg versionArg pn pd pa = .ok d) :
    ∃ nm de au, get_param y .name nameArg pn = .ok nm ∧
      get_param y .description descriptionArg pd = .ok de ∧
      get_param y .author authorArg pa = .ok au ∧
      d = derive_params y nm de au (resolve_version y versionArg) := by
  unfold create_param_dict at h
  cases h1 : get_param y .name nameArg pn with
  | error e => rw [h1] at h; exact absurd h (by simp)
  | ok nm =>
    rw [h1] at h
    cases h2 : get_param y .description descriptionArg pd with
    | error e => rw [h2] at h; exact absurd h (by simp)
    | ok de =>
      rw [h2] at h
      cases h3 : get_param y .author authorArg pa with
      | error e => rw [h3] at h; exact absurd h (by simp)
      | ok au =>
        rw [h3] at h
        simp at h
        exact ⟨nm, de, au, rfl, rfl, rfl, h.symm⟩

theorem logoLoop_attempts_le (oracle : Nat → FetchOutcome) (rng : Nat → Nat) :
    ∀ (fuel attempt rd : Nat) (file : Option (List Nat)) (sl : List Nat),
      (logoLoop oracle rng fuel attempt rd file sl).attempts ≤ attempt + fuel := by
  intro fuel
  induction fuel with
  | zero => intro attempt rd file sl; simp [logoLoop]
  | succ n ih =>
    intro attempt rd file sl
    simp only [logoLoop]
    cases h : oracle (attempt + 1) with
    | connError =>
      exact Nat.le_trans
        (ih (attempt + 1) (rng (attempt + 1) * (attempt + 1)) file
          (if rd > 0 then sl ++ [rd] else sl)) (by omega)
    | response st p png =>
      by_cases hst : st = 200
      · by_cases hp : png
        · subst hst
          subst hp
          show attempt + 1 ≤ attempt + (n + 1)
          omega
        · simp only [hst, hp, if_true, if_false, Bool.false_eq_true]
          exact Nat.le_trans
            (ih (attempt + 1) (rng (attempt + 1) * (attempt + 1)) (some p)
              (if rd > 0 then sl ++ [rd] else sl)) (by omega)
      · simp only [hst, if_false]
        exact Nat.le_trans
          (ih (attempt + 1) (rng (attempt + 1) * (attempt + 1)) file
            (if rd > 0 then sl ++ [rd] else sl)) (by omega)

theorem logoLoop_success (oracle : Nat → FetchOutcome) (rng : Nat → Nat) (p : List Nat) :
    ∀ (N fuel attempt rd : Nat) (file : Option (List Nat)) (sl : List Nat),
      N < fuel →
      (∀ i, attempt + 1 ≤ i → i ≤ attempt + N → isFailure (oracle i) = true) →
      oracle (attempt + N + 1) = .response 200 p true →
      (logoLoop oracle rng fuel attempt rd file sl).attempts = attempt + N + 1 ∧
      (logoLoop oracle rng fuel attempt rd file sl).file = some p ∧
      (logoLoop oracle rng fuel attempt rd file sl).success = true := by
  intro N
  induction N with
  | zero =>
    intro fuel attempt rd file sl hfuel _ hsucc
    obtain ⟨f, rfl⟩ : ∃ f, fuel = f + 1 := ⟨fuel - 1, by omega⟩
    have : oracle (attempt + 1) = .response 200 p true := by
      simpa using hsucc
    simp [logoLoop, this]
  | succ N ih =>
    intro fuel attempt rd file sl hfuel hfail hsucc
    obtain ⟨f, rfl⟩ : ∃ f, fuel = f + 1 := ⟨fuel - 1, by omega⟩
    have hfail1 : isFailure (oracle (attempt + 1)) = true :=
      hfail (attempt + 1) (Nat.le_refl _) (by omega)
    have hfail2 : ∀ i, attempt + 1 + 1 ≤ i → i ≤ attempt + 1 + N → isFailure (oracle i) = true := by
      intro i h1 h2
      exact hfail i (by omega) (by omega)
    have hsucc2 : oracle (attempt + 1 + N + 1) = .response 200 p true := by
      have : attempt + 1 + N + 1 = attempt + (N + 1) + 1 := by omega
      rw [this]; exact hsucc
    simp only [logoLoop]
    cases h : oracle (attempt + 1) with
    | connError =>
      have := ih f (attempt + 1) (rng (attempt + 1) * (attempt + 1)) file
        (if rd > 0 then sl ++ [rd] else sl) (by omega) hfail2 hsucc2
      refine ⟨?_, this.2.1, this.2.2⟩
      rw [this.1]; omega
    | response st q png =>
      rw [h] at hfail1
      by_cases hst : st = 200
      · have hp : png = false := by
          subst hst
          simpa [isFailure] using hfail1
        simp only [hst, hp, if_true, if_false, Bool.false_eq_true]
        have := ih f (attempt + 1) (rng (attempt + 1) * (attempt + 1)) (some q)
          (if rd > 0 then sl ++ [rd] else sl) (by omega) hfail2 hsucc2
        refine ⟨?_, this.2.1, this.2.2⟩
        rw [this.1]; omega
      · simp only [hst, if_false]
        have := ih f (attempt + 1) (rng (attempt + 1) * (attempt + 1)) file
          (if rd > 0 then sl ++ [rd] else sl) (by omega) hfail2 hsucc2
        refine ⟨?_, this.2.1, this.2.2⟩
        rw [this.1]; omega

theorem logoLoop_allfail (oracle : Nat → FetchOutcome) (rng : Nat → Nat)
    (h : ∀ i, isFailure (oracle i) = true) :
    ∀ (fuel attempt rd : Nat) (file : Option (List Nat)) (sl : List Nat),
      (logoLoop oracle rng fuel attempt rd file sl).attempts = attempt + fuel ∧
      (logoLoop oracle rng fuel attempt rd file sl).success = false := by
  intro fuel
  induction fuel with
  | zero => intro attempt rd file sl; simp [logoLoop]
  | succ n ih =>
    intro attempt rd file sl
    have hfail := h (attempt + 1)
    simp only [logoLoop]
    cases hor : oracle (attempt + 1) with
    | connError =>
      have := ih (attempt + 1) (rng (attempt + 1) * (attempt + 1)) file
        (if rd > 0 then sl ++ [rd] else sl)
      exact ⟨by rw [this.1]; omega, this.2⟩
    | response st p png =>
      rw [hor] at hfail
      by_cases hst : st = 200
      · have hp : png = false := by
          subst hst
          simpa [isFailure] using hfail
        simp only [hst, hp, if_true, if_false, Bool.false_eq_true]
        have := ih (attempt + 1) (rng (attempt + 1) * (attempt + 1)) (some p)
          (if rd > 0 then sl ++ [rd] else sl)
        exact ⟨by rw [this.1]; omega, this.2⟩
      · simp only [hst, if_false]
        have := ih (attempt + 1) (rng (attempt + 1) * (attempt + 1)) file
          (if rd > 0 then sl ++ [rd] else sl)
        exact ⟨by rw [this.1]; omega, this.2⟩

theorem logoLoop_sleeps_gen (oracle : Nat → FetchOutcome) (rng : Nat → Nat)
    (hf : ∀ i, isFailure (oracle i) = true) (hr : ∀ i, 1 ≤ rng i) :
    ∀ (fuel attempt rd : Nat) (file : Option (List Nat)) (sl : List Nat), 1 ≤ fuel →
      (logoLoop oracle rng fuel attempt rd file sl).sleeps
        = sl ++ pendSleep rd ++ expectedSleeps rng (attempt + 1) (fuel - 1) := by
  intro fuel
  induction fuel with
  | zero => intro attempt rd file sl hle; omega
  | succ n ih =>
    intro attempt rd file sl _
    have hsl : (if rd > 0 then sl ++ [rd] else sl) = sl ++ pendSleep rd := by
      by_cases hrd : rd > 0 <;> simp [pendSleep, hrd]
    have hfail := hf (attempt + 1)
    have hstep : ∀ (file2 : Option (List Nat)),
        (logoLoop oracle rng n (attempt + 1) (rng (attempt + 1) * (attempt + 1)) file2
          (sl ++ pendSleep rd)).sleeps
          = sl ++ pendSleep rd ++ expectedSleeps rng (attempt + 1) n := by
      intro file2
      cases n with
      | zero => simp [logoLoop, expectedSleeps]
      | succ m =>
        rw [ih (attempt + 1) (rng (attempt + 1) * (attempt + 1)) file2
          (sl ++ pendSleep rd) (by omega)]
        have hpos : rng (attempt + 1) * (attempt + 1) > 0 :=
          Nat.mul_pos (Nat.lt_of_lt_of_le Nat.zero_lt_one (hr (attempt + 1))) (by omega)
        simp [pendSleep, hpos, expectedSleeps]
    simp only [logoLoop, hsl]
    cases hor : oracle (attempt + 1) with
    | connError => exact hstep file
    | response st p png =>
      rw [hor] at hfail
      by_cases hst : st = 200
      · have hp : png = false := by
          subst hst
          simpa [isFailure] using hfail
        simp only [hst, hp, if_true, if_false, Bool.false_eq_true]
        exact hstep (some p)
      · simp only [hst, if_false]
        exact hstep file

theorem render_template_fresh (d : Dict) (force : Bool) (outdir tdir nfv : String)
    (tfiles : List TemplateFile) (nm : String) (h : dgetS d "name" = .ok nm) :
    render_template d force false outdir tdir tfiles nfv
      = renderBody d true false outdir tdir tfiles nfv := by
  simp [render_template, h]

theorem renderBody_emptyShortName (d : Dict) (c w : Bool) (outdir tdir nfv : String)
    (tfiles : List TemplateFile) (h : dget d "short_name" = some (.str "")) :
    renderBody d c w outdir tdir tfiles nfv
      = { createdDir := c, warned := w, files := [], logoInvoked := false,
          downloads := [], outcome := .raised .indexError } := by
  have h2 : dgetS (dset d "nf_core_version" (.str nfv)) "short_name" = .ok "" := by
    rw [dgetS, dget_dset_ne _ _ _ _ (by decide), h]
  simp [renderBody, h2, buildRenameFiles]

theorem renderBody_no_outdir (d : Dict) (c w : Bool) (outdir tdir nfv : String)
    (tfiles : List TemplateFile) (sn : String)
    (hsn : dget d "short_name" = some (.str sn)) (hne : sn ≠ "")
    (hout : dget d "outdir" = Option.none) :
    (renderBody d c w outdir tdir tfiles nfv).logoInvoked = true ∧
    (renderBody d c w outdir tdir tfiles nfv).downloads = [] ∧
    (renderBody d c w outdir tdir tfiles nfv).outcome = .raised (.keyError "outdir") := by
  have h2 : dgetS (dset d "nf_core_version" (.str nfv)) "short_name" = .ok sn := by
    rw [dgetS, dget_dset_ne _ _ _ _ (by decide), hsn]
  obtain ⟨c0, cs, hdata⟩ : ∃ c0 cs, sn.data = c0 :: cs := by
    rcases sn with ⟨l⟩
    cases l with
    | nil => exact absurd rfl hne
    | cons a as => exact ⟨a, as, rfl⟩
  obtain ⟨tbl, h3⟩ : ∃ tbl, buildRenameFiles sn = .ok tbl := by
    unfold buildRenameFiles
    rw [hdata]
    exact ⟨_, rfl⟩
  have h4 : dgetS (dset d "nf_core_version" (.str nfv)) "outdir" = .error (.keyError "outdir") := by
    rw [dgetS, dget_dset_ne _ _ _ _ (by decide), hout]
  have h5 : make_pipeline_logo (dset d "nf_core_version" (.str nfv))
      = .error (.keyError "outdir") := by
    simp [make_pipeline_logo, h2, h4]
  simp [renderBody, h2, h3, h5]

/-- C1: the claim says a disabled feature area is filtered out of the output
tree.  The code refutes it: the skippable_paths table is dead, so with the ci
area disabled (dget "ci" is false) a file under .github/workflows/ is still
written to the output tree. -/
theorem c1_skip_area_never_applied :
    lookupStr skippable_paths "ci" = some ".github/workflows/" ∧
    dget dSkipCI "ci" = some (.bool false) ∧
    List.isPrefixOf (".github/workflows/" : String).data ciFile.relPath.data = true ∧
    (render_template dSkipCI false false "out" "tpl" [ciFile] "2.6").files.map (fun o => o.path)
      = ["out/.github/workflows/ci.yml"] := by decide

/-- C2: the claim says a field defined in the YAML resolves to the value the
YAML gives for that same field.  The code refutes it: get_param reads the
literal key "name" for every field, so with name = "x" and description = "y"
the resolved description is "x", and with description present but name absent
the lookup raises KeyError. -/
theorem c2_yaml_field_resolution_reads_name :
    yC2.description = some "y" ∧
    get_param yC2 .description Option.none "prompted" = .ok "x" ∧
    ("x" : String) ≠ "y" ∧
    get_param yC2b .description Option.none "prompted" = .error (.keyError "name") ∧
    dget (exOk (create_param_dict yC2 Option.none Option.none (some "me") (some "1.0dev")
      "pn" "pd" "pa")) "description" = some (.str "x") := by decide

/-- C3: the claim says an existing output directory with force logs a warning
and proceeds, and without force exits with the destination-exists error.  The
code refutes both paths: the f-strings at lines 196 and 199 read
template_params["outdir"], a key create_param_dict never stores, so both
branches raise KeyError (the force branch never proceeds, the no-force branch
never reaches sys.exit(1)); no file is written either way.  A missing output
directory is created and the run proceeds. -/
theorem c3_outdir_lookup_raises :
    dget dMypipe "outdir" = Option.none ∧
    (render_template dMypipe true true "out" "tpl" [ciFile] "2.6").outcome
      = .raised (.keyError "outdir") ∧
    (render_template dMypipe true true "out" "tpl" [ciFile] "2.6").files = [] ∧
    (render_template dMypipe true true "out" "tpl" [ciFile] "2.6").warned = false ∧
    (render_template dMypipe false true "out" "tpl" [ciFile] "2.6").outcome
      = .raised (.keyError "outdir") ∧
    (render_template dMypipe false false "out" "tpl" [ciFile] "2.6").createdDir = true := by decide

/-- C4: at most 10 attempts are made; when the endpoint fails the first N
attempts (N below 10) and then returns a valid png, exactly N + 1 attempts are
observed and the destination holds the successful payload; when every attempt
fails, exactly 10 attempts are observed and the call returns normally (no
exception escapes: the except clause covers both raised classes and the loop
exit only logs). -/
theorem c4_retry_contract (oracle : Nat → FetchOutcome) (rng : Nat → Nat)
    (init : Option (List Nat)) :
    (download_pipeline_logo oracle rng init).attempts ≤ 10 ∧
    (∀ (N : Nat) (p : List Nat), N < 10 →
      (∀ i, 1 ≤ i → i ≤ N → isFailure (oracle i) = true) →
      oracle (N + 1) = .response 200 p true →
      (download_pipeline_logo oracle rng init).attempts = N + 1 ∧
      (download_pipeline_logo oracle rng init).file = some p ∧
      (download_pipeline_logo oracle rng init).success = true) ∧
    ((∀ i, isFailure (oracle i) = true) →
      (download_pipeline_logo oracle rng init).attempts = 10 ∧
      (download_pipeline_logo oracle rng init).success = false) := by
  refine ⟨?_, ?_, ?_⟩
  · exact logoLoop_attempts_le oracle rng 10 0 0 init []
  · intro N p hN hfail hsucc
    have := logoLoop_success oracle rng p N 10 0 0 init [] hN
      (by intro i h1 h2; exact hfail i (by omega) (by omega))
      (by simpa using hsucc)
    simpa [download_pipeline_logo] using this
  · intro hfail
    have := logoLoop_allfail oracle rng hfail 10 0 0 init []
    simpa [download_pipeline_logo] using this

/-- C4 witness: two connection failures followed by a valid png give exactly
three attempts and the successful payload at the destination. -/
theorem c4_witness :
    (download_pipeline_logo oracleFailTwice rngConst1 Option.none).attempts = 2 + 1 ∧
    (download_pipeline_logo oracleFailTwice rngConst1 Option.none).file = some [7] ∧
    (download_pipeline_logo oracleFailTwice rngConst1 Option.none).success = true :=
  (c4_retry_contract oracleFailTwice rngConst1 Option.none).2.1 2 [7] (by omega)
    (by intro i h1 h2; simp [oracleFailTwice, h2, isFailure]) (by decide)

/-- C5: for any resolved parameter dictionary with valid prefix and short_name,
name is the prefix, a slash, and the short name, and name_noslash is name with
every slash replaced by a hyphen. -/
theorem c5_name_composition (y : TemplateYaml)
    (nameArg descriptionArg authorArg versionArg : Option String)
    (pn pd pa : String) (d : Dict) (P S : String)
    (h : create_param_dict y nameArg descriptionArg authorArg versionArg pn pd pa = .ok d)
    (hP : dget d "prefix" = some (.str P))
    (hS : dget d "short_name" = some (.str S))
    (hvP : isValidPfx P = true) (hvS : isValidShortName S = true) :
    dget d "name" = some (.str (P ++ "/" ++ S)) ∧
    dget d "name_noslash" = some (.str (slashToDash (P ++ "/" ++ S))) := by
  obtain ⟨nm, de, au, h1, h2, h3, rfl⟩ := create_param_dict_ok _ _ _ _ _ _ _ _ _ h
  have hP2 : dget (derive_params y nm de au (resolve_version y versionArg)) "prefix"
      = some (.str (y.pfx.getD "nf-core")) := by
    simp [derive_params, dget, dset]
  have hS2 : dget (derive_params y nm de au (resolve_version y versionArg)) "short_name"
      = some (.str (shortNameOf nm (y.pfx.getD "nf-core"))) := by
    simp [derive_params, dget, dset]
  rw [hP2] at hP
  rw [hS2] at hS
  simp only [Option.some.injEq, PVal.str.injEq] at hP hS
  subst hP
  subst hS
  constructor
  · simp [derive_params, dget, dset]
  · have : dget (derive_params y nm de au (resolve_version y versionArg)) "name_noslash"
        = some (.str (pyReplace
            (y.pfx.getD "nf-core" ++ "/" ++ shortNameOf nm (y.pfx.getD "nf-core")) "/" "-")) := by
      simp [derive_params, dget, dset]
    rw [this, pyReplace_slash]

/-- C5 witness: the yMypipe resolution instantiates the composition laws at
prefix nf-core and short name mypipe. -/
theorem c5_witness :
    dget dMypipe "name" = some (.str ("nf-core" ++ "/" ++ "mypipe")) ∧
    dget dMypipe "name_noslash" = some (.str (slashToDash ("nf-core" ++ "/" ++ "mypipe"))) :=
  c5_name_composition yMypipe Option.none (some "desc") (some "me") (some "1.0dev")
    "p" "p" "p" dMypipe "nf-core" "mypipe" (by rfl) (by decide) (by decide) (by decide) (by decide)

/-- C6: a binary file is copied byte for byte; a non-binary file whose render
succeeds is written rendered; a render failure of any class falls back to a
verbatim copy - the entry still produces an output file and the run is not
aborted. -/
theorem c6_render_or_copy (outdir tdir : String) (rename : List (String × String))
    (f : TemplateFile) (hd : f.isDir = false) (hi : isIgnored tdir f = false) :
    (f.isBinary = true →
      processFile outdir tdir rename f
        = some ⟨outPathOf outdir rename f, .copiedBytes f.content, f.mode⟩) ∧
    (∀ s, f.isBinary = false → f.renderResult = .ok s →
      processFile outdir tdir rename f
        = some ⟨outPathOf outdir rename f, .rendered s, f.mode⟩) ∧
    (∀ e, f.isBinary = false → f.renderResult = .error e →
      processFile outdir tdir rename f
        = some ⟨outPathOf outdir rename f, .copiedBytes f.content, f.mode⟩) := by
  refine ⟨?_, ?_, ?_⟩
  · intro hb
    simp [processFile, hd, hi, hb]
  · intro s hb hr
    simp [processFile, hd, hi, hb, hr]
  · intro e hb hr
    simp [processFile, hd, hi, hb, hr]

/-- C6 witness: the binary fixture is copied verbatim with its own bytes. -/
theorem c6_witness :
    processFile "out" "tpl" [] fBin
      = some ⟨outPathOf "out" [] fBin, .copiedBytes fBin.content, fBin.mode⟩ :=
  (c6_render_or_copy "out" "tpl" [] fBin (by decide) (by decide)).1 (by decide)

/-- C7: every file emitted by the loop, rendered or copied, carries the
permission bits of its template source (the unconditional os.chmod). -/
theorem c7_permission_mirroring (outdir tdir : String) (rename : List (String × String))
    (f : TemplateFile) (o : OutFile) (h : processFile outdir tdir rename f = some o) :
    o.mode = f.mode := by
  unfold processFile at h
  by_cases hd : f.isDir
  · rw [if_pos hd] at h
    exact absurd h (by simp)
  · rw [if_neg hd] at h
    by_cases hi : isIgnored tdir f
    · rw [if_pos hi] at h
      exact absurd h (by simp)
    · rw [if_neg hi] at h
      by_cases hb : f.isBinary
      · rw [if_pos hb] at h
        injection h with h2
        rw [← h2]
      · rw [if_neg hb] at h
        cases hr : f.renderResult with
        | ok s =>
          rw [hr] at h
          injection h with h2
          rw [← h2]
        | error e =>
          rw [hr] at h
          injection h with h2
          rw [← h2]

/-- C7 witness: the copied binary fixture keeps its source mode. -/
theorem c7_witness : outBin.mode = fBin.mode :=
  c7_permission_mirroring "out" "tpl" [] fBin outBin (by decide)

/-- C8 counterexample: with the default prefix, branded is true, yet no logo is
ever fetched - the logo step aborts on the missing "outdir" key with an empty
download list - so fetching does not happen even when branded holds. -/
theorem c8_counterexample :
    dget dMypipe "branded" = some (.bool true) ∧
    (render_template dMypipe false false "out" "tpl" [ciFile] "2.6").downloads
      = ([] : List (String × String)) ∧
    (render_template dMypipe false false "out" "tpl" [ciFile] "2.6").outcome
      = .raised (.keyError "outdir") := by decide

/-- C8 amended: branded is true exactly when the prefix equals nf-core, but
branded does not govern logo acquisition - materialization reaches the logo
step unconditionally, and that step raises KeyError on the missing "outdir"
entry before any download is issued, whatever branded is. -/
theorem c8_branded_no_gate (y : TemplateYaml)
    (nameArg descriptionArg authorArg versionArg : Option String)
    (pn pd pa : String) (d : Dict)
    (h : create_param_dict y nameArg descriptionArg authorArg versionArg pn pd pa = .ok d) :
    dget d "branded" = some (.bool (y.pfx.getD "nf-core" == "nf-core")) ∧
    (∀ (force : Bool) (outdir tdir nfv : String) (tfiles : List TemplateFile) (sn : String),
      dget d "short_name" = some (.str sn) → sn ≠ "" →
      (render_template d force false outdir tdir tfiles nfv).logoInvoked = true ∧
      (render_template d force false outdir tdir tfiles nfv).downloads = []) := by
  obtain ⟨nm, de, au, h1, h2, h3, rfl⟩ := create_param_dict_ok _ _ _ _ _ _ _ _ _ h
  constructor
  · simp [derive_params, dget, dset]
  · intro force outdir tdir nfv tfiles sn hsn hne
    have hname : dgetS (derive_params y nm de au (resolve_version y versionArg)) "name"
        = .ok (y.pfx.getD "nf-core" ++ "/" ++ shortNameOf nm (y.pfx.getD "nf-core")) := by
      simp [dgetS, derive_params, dget, dset]
    rw [render_template_fresh _ force _ _ _ _ _ hname]
    have hout : dget (derive_params y nm de au (resolve_version y versionArg)) "outdir"
        = Option.none := by
      simp [derive_params, dget, dset]
    have := renderBody_no_outdir (derive_params y nm de au (resolve_version y versionArg))
      true false outdir tdir nfv tfiles sn hsn hne hout
    exact ⟨this.1, this.2.1⟩

/-- C8 witness: the yMypipe resolution has branded computed from its prefix and
still reaches the logo step. -/
theorem c8_witness :
    dget dMypipe "branded" = some (.bool ((yMypipe.pfx.getD "nf-core") == "nf-core")) ∧
    (render_template dMypipe false false "out" "tpl" [ciFile] "2.6").logoInvoked = true := by
  have h := c8_branded_no_gate yMypipe Option.none (some "desc") (some "me") (some "1.0dev")
    "p" "p" "p" dMypipe (by rfl)
  exact ⟨h.1, (h.2 false "out" "tpl" "2.6" [ciFile] "mypipe" (by decide) (by decide)).1⟩

/-- C9 counterexample: with every draw equal to 7 and every attempt failing,
the observed sleeps are 7 times 1 through 9 - the sleep before attempt n uses
multiplier n - 1 - not 7 times 2 through 10 as the claim (multiplier equal to
the attempt about to be made) would require. -/
theorem c9_counterexample :
    (download_pipeline_logo oracleAllFail rngConst7 Option.none).sleeps
      = [7, 14, 21, 28, 35, 42, 49, 56, 63] ∧
    [7, 14, 21, 28, 35, 42, 49, 56, 63] ≠ [14, 21, 28, 35, 42, 49, 56, 63, 70] := by decide

/-- C9 amended: no sleep precedes the first attempt, and in an exhausted run
the k-th sleep - the one before attempt k + 1 - lasts rng k * k time units:
the draw and the multiplier use the number of the attempt just completed, not
the attempt about to be made. -/
theorem c9_backoff_uses_previous_attempt (oracle : Nat → FetchOutcome) (rng : Nat → Nat)
    (init : Option (List Nat)) :
    (∀ p, oracle 1 = .response 200 p true →
      (download_pipeline_logo oracle rng init).sleeps = []) ∧
    ((∀ i, isFailure (oracle i) = true) → (∀ i, 1 ≤ rng i) →
      (download_pipeline_logo oracle rng init).sleeps = expectedSleeps rng 1 9) := by
  constructor
  · intro p h
    simp [download_pipeline_logo, logoLoop, h]
  · intro hf hr
    have := logoLoop_sleeps_gen oracle rng hf hr 10 0 0 init [] (by omega)
    simpa [download_pipeline_logo, pendSleep] using this

/-- C9 witness: the always-failing endpoint with constant draw 7 realizes the
amended sleep schedule. -/
theorem c9_witness :
    (download_pipeline_logo oracleAllFail rngConst7 Option.none).sleeps
      = expectedSleeps rngConst7 1 9 :=
  (c9_backoff_uses_previous_attempt oracleAllFail rngConst7 Option.none).2
    (by intro i; rfl) (by intro i; show (1 : Nat) ≤ 7; omega)

/-- C10: the rename table is well defined for every non-empty short_name;
indexing an empty short_name raises IndexError, and a materialization run with
an empty short_name stops with that error before processing any file (its file
list is empty and the logo step is never reached). -/
theorem c10_rename_table_indexing :
    (∀ sn : String, sn ≠ "" → ∃ tbl, buildRenameFiles sn = .ok tbl) ∧
    buildRenameFiles "" = .error .indexError ∧
    (∀ (d : Dict) (force : Bool) (outdir tdir nfv : String) (tfiles : List TemplateFile)
      (nm : String),
      dgetS d "name" = .ok nm →
      dget d "short_name" = some (.str "") →
      render_template d force false outdir tdir tfiles nfv
        = { createdDir := true, warned := false, files := [], logoInvoked := false,
            downloads := [], outcome := .raised .indexError }) := by
  refine ⟨?_, by rfl, ?_⟩
  · intro sn hne
    rcases sn with ⟨l⟩
    cases l with
    | nil => exact absurd rfl hne
    | cons a as => exact ⟨_, rfl⟩
  · intro d force outdir tdir nfv tfiles nm hname hsn
    rw [render_template_fresh d force outdir tdir nfv tfiles nm hname]
    exact renderBody_emptyShortName d true false outdir tdir nfv tfiles hsn

/-- C10 witness: the resolution of yEmptyShort produces an empty short_name and
its materialization raises IndexError with no files written. -/
theorem c10_witness :
    render_template dEmptyShort false false "out" "tpl" [ciFile] "2.6"
      = { createdDir := true, warned := false, files := [], logoInvoked := false,
          downloads := [], outcome := .raised .indexError } :=
  c10_rename_table_indexing.2.2 dEmptyShort false "out" "tpl" "2.6" [ciFile]
    "nf-core/" (by decide) (by decide)
